import Mathlib

/-!
Shallow embedding of the maritime pilot report assistant backend
(`app/routers/chat.py`, `app/services/voice_service.py`,
`app/services/openai_service.py`, `app/services/gemini_service.py`,
`app/models/schemas.py`) together with proofs about its
response-composition, provider-normalization and voice-pipeline logic.

Conventions used throughout:
* Python/JSON scalar values are `PyVal` (ints as `Int`, floats as exact
  rationals, strings, `None`).  `str()` of a float is modelled exactly for
  integral floats, the only floats the formatting logic is exercised on.
* Python dicts are insertion-ordered association lists; `d[k] = v` is
  `dictInsert` (overwriting keeps the original position, new keys append).
* Fallible Python code lives in `Except String`; an uncaught exception is
  an `Except.error` carrying the exception text.
* The external model/speech backends are out of scope: the outcome of a
  backend call is an explicit argument of the embedded function.
-/

namespace Maritime

/-- Python/JSON scalar values as they occur in parsed tool-call arguments. -/
inductive PyVal where
  | int (n : Int)
  | float (q : Rat)
  | str (s : String)
  | pynone
  deriving DecidableEq, Repr

/-- Python `int()` on a rational: truncation toward zero. -/
def pyTrunc (q : Rat) : Int :=
  if q.num < 0 then -((q.num.natAbs / q.den : Nat) : Int)
  else ((q.num.natAbs / q.den : Nat) : Int)

/-- Python `str()` / f-string rendering of a scalar.  Floats are rendered
exactly for integral values (`str(4.0)` is `"4.0"`). -/
def pyStr : PyVal → String
  | .int n => toString n
  | .float q => if q.den = 1 then toString q.num ++ ".0" else toString q
  | .str s => s
  | .pynone => "None"

/-- Python dict assignment `d[k] = v` on an insertion-ordered association
list: an existing key keeps its position and gets the new value, a new key
is appended at the end. -/
def dictInsert (d : List (String × α)) (k : String) (v : α) : List (String × α) :=
  match d with
  | [] => [(k, v)]
  | (k1, v1) :: rest => if k1 = k then (k, v) :: rest else (k1, v1) :: dictInsert rest k v

/-- A Python dict built from a stream of key/value assignments, processed
left to right (the dict-comprehension / update-loop idiom of the code). -/
def pyDictOfPairs (ps : List (String × α)) : List (String × α) :=
  ps.foldl (fun d p => dictInsert d p.1 p.2) []

/-- The value attached to the last occurrence of key `k` in an assignment
stream, if any. -/
def lastVal (ps : List (String × α)) (k : String) : Option α :=
  ((ps.filter (fun p => p.1 = k)).getLast?).map (fun p => p.2)

/-! ## Normalized model result (`openai_service.py`, `gemini_service.py`) -/

/-- One proposed field update inside parsed tool-call arguments.  Both keys
are optional because a JSON object need not contain them: `update["field"]`
raises `KeyError`, while `update.get("field")` yields `None`. -/
structure UpdateJ where
  field : Option String
  suggestion : Option PyVal
  deriving DecidableEq, Repr

/-- Parsed `suggest_fields` tool-call arguments (the `json.loads` result):
an optional `reply` string and an optional `updates` list. -/
structure ArgsJson where
  reply : Option String := none
  updates : Option (List UpdateJ) := none
  deriving DecidableEq, Repr

/-- A structured tool invocation of a normalized model message.  `fname` is
the function name (`none` for the Gemini mock object, which carries no name
attribute); `args` is the outcome of parsing the JSON argument string. -/
structure ToolCallE where
  fname : Option String := none
  args : Except String ArgsJson
  deriving Repr

/-- Normalized model message (the OpenAI `choices[0].message` shape; the
Gemini converter produces the same shape).  `tool_calls = None` and an
empty list are modelled alike as `[]`: the routers only test truthiness. -/
structure AiMsg where
  content : Option String := none
  toolCalls : List ToolCallE := []
  deriving Repr

/-! ## Provider adapters -/

/-- One element of `resp.choices` of an OpenAI chat completion. -/
structure OAChoice where
  message : AiMsg
  deriving Repr

/-- An OpenAI chat-completion response body. -/
structure OAResp where
  choices : List OAChoice
  deriving Repr

/-- `openai_service.chat_completion` (lines 42-88): assembles the prompt,
awaits the backend and returns `resp.choices[0].message`.  There is no
`try/except`, so a backend exception propagates to the caller, and an
empty `choices` list would raise `IndexError`. -/
def openaiChatCompletion (backendOutcome : Except String OAResp) : Except String AiMsg :=
  match backendOutcome with
  | .error e => .error e
  | .ok resp =>
    match resp.choices with
    | [] => .error "IndexError: list index out of range"
    | c :: _ => .ok c.message

/-- One part of a Gemini candidate content: free text or a function call. -/
inductive GPart where
  | gtext (s : String)
  | gfunc (args : ArgsJson)
  deriving DecidableEq, Repr

/-- The function-call payload of a part, if it is one. -/
def GPart.funcArgs : GPart → Option ArgsJson
  | .gfunc a => some a
  | .gtext _ => none

/-- The `content` of a Gemini candidate. -/
structure GContent where
  parts : List GPart
  deriving DecidableEq, Repr

/-- One Gemini response candidate (`candidate.content` may be falsy). -/
structure GCandidate where
  content : Option GContent
  deriving DecidableEq, Repr

/-- A Gemini API response: optional aggregated text and candidates. -/
structure GeminiResp where
  text : Option String
  candidates : List GCandidate
  deriving DecidableEq, Repr

/-- `gemini_service.convert_gemini_response_to_openai_format` (lines
163-209): takes the response text, and the first function-call part of the
first candidate (if any) as the single mock tool call.  `json.dumps` of
the arguments followed by the router's `json.loads` round-trips, so the
parsed arguments are carried directly. -/
def convertGemini (gr : GeminiResp) : AiMsg :=
  let tcs : List ToolCallE :=
    match gr.candidates with
    | [] => []
    | cand :: _ =>
      match cand.content with
      | none => []
      | some ct =>
        match ct.parts.findSome? GPart.funcArgs with
        | some args => [{ fname := none, args := Except.ok args }]
        | none => []
  { content := gr.text, toolCalls := tcs }

/-- `gemini_service.chat_completion` (lines 82-161): assembles the prompt,
awaits the backend and converts the response; there is no `try/except`, so
a backend exception propagates. -/
def geminiChatCompletion (backendOutcome : Except String GeminiResp) : Except String AiMsg :=
  backendOutcome.map convertGemini

/-! ## HTTP chat router (`chat.py`) -/

/-- `format_updates` (chat.py lines 26-35): a flat bullet list using the
raw field identifiers, headed `Updated fields:`. -/
def chatFormatUpdates (u : List (String × PyVal)) : String :=
  if u.isEmpty then ""
  else
    "Updated fields:\n" ++
      String.intercalate "\n" (u.map fun p => "• **" ++ p.1 ++ "**: " ++ pyStr p.2)

/-- `update["field"]` / `update["suggestion"]` over the parsed updates
list: a missing key raises `KeyError` (chat.py lines 167-168). -/
def extractPairs (us : List UpdateJ) : Except String (List (String × PyVal)) :=
  us.mapM fun u => do
    let f ← match u.field with
      | some f => Except.ok f
      | none => Except.error "KeyError: field"
    let v ← match u.suggestion with
      | some v => Except.ok v
      | none => Except.error "KeyError: suggestion"
    Except.ok (f, v)

/-- The whitespace characters Python `str.strip()` removes (over the
ASCII range the transcripts use). -/
def isPySpace (c : Char) : Bool :=
  c == ' ' || c == '\t' || c == '\n' || c == '\r' || c == '\x0b' || c == '\x0c'

/-- Python `s.strip()`. -/
def pyStrip (s : String) : String :=
  ⟨((s.data.dropWhile isPySpace).reverse.dropWhile isPySpace).reverse⟩

/-- Python `s.lower()` (ASCII case mapping). -/
def pyLower (s : String) : String :=
  ⟨s.data.map Char.toLower⟩

/-- Truthiness of `o and o.strip()` for an optional string — the router's
non-blank test. -/
def nonBlank (o : Option String) : Bool :=
  match o with
  | some s => pyStrip s != ""
  | none => false

/-- The fixed last-resort acknowledgement (chat.py line 189). -/
def ackText : String := "I've updated the form based on our conversation."

/-- Appending the update summary to a chosen reply (chat.py lines 176-185):
only when the updated mapping is nonempty, after a `---` separator and
with a closing `---`. -/
def chatReplyWith (r : String) (updated : List (String × PyVal)) : String :=
  if updated.isEmpty then r
  else r ++ "\n\n---\n\n" ++ chatFormatUpdates updated ++ "\n\n---"

/-- Reply composition for a turn with a structured invocation (chat.py
lines 173-189): prefer the invocation reply, then the top-level content,
then the fixed acknowledgement (which gets the summary after a bare blank
line instead of the `---` separator). -/
def composeChatReply (dreply content : Option String) (updated : List (String × PyVal)) : String :=
  if nonBlank dreply then chatReplyWith (dreply.getD "") updated
  else if nonBlank content then chatReplyWith (content.getD "") updated
  else ackText ++ "\n\n" ++ chatFormatUpdates updated

/-- The `*Powered by …*` footer the router appends to every reply it
returns (chat.py lines 117 and 196). -/
def poweredFooter (provider : String) : String :=
  "\n\n---\n\n*Powered by " ++ provider.toUpper ++ "*"

/-- `ChatResponse` (schemas.py lines 27-34): reply text, optional
updated-fields mapping (default `None`) and has-updates flag. -/
structure ChatResponseE where
  reply : String
  updatedFields : Option (List (String × PyVal)) := none
  hasUpdates : Bool := false
  deriving DecidableEq, Repr

/-- A chat message of `ChatRequest` (schemas.py lines 7-12). -/
structure MessageE where
  role : String
  content : String
  deriving DecidableEq, Repr

/-- `ChatRequest` (schemas.py lines 16-25).  The schema declares messages,
form, is_ai_update and ai_role — and no `ai_provider` field. -/
structure ChatRequestE where
  messages : List MessageE
  form : List (String × PyVal)
  isAiUpdate : Bool := true
  aiRole : Option String := some "co-worker"
  deriving DecidableEq, Repr

/-- `req.ai_provider` as evaluated on a validated `ChatRequest` instance:
the schema declares no such field (pydantic drops unknown input keys and
defines no attribute), so the attribute access raises `AttributeError`
regardless of the request body. -/
def chatRequestProvider (_req : ChatRequestE) : Except String String :=
  Except.error "AttributeError: ChatRequest has no attribute ai_provider"

/-- The body of the `chat` endpoint after provider dispatch (chat.py lines
136-199), as a function of the provider string and the adapter outcome.
Uncaught Python exceptions (backend failure, `json.loads` failure, missing
JSON keys) are `Except.error`. -/
def chatProcessMsg (provider : String) (outcome : Except String AiMsg) :
    Except String ChatResponseE :=
  match outcome with
  | .error e => .error e
  | .ok aiMsg =>
    match aiMsg.toolCalls with
    | [] =>
      .ok { reply := aiMsg.content.getD "" ++ poweredFooter provider
            updatedFields := some []
            hasUpdates := false }
    | tc :: _ =>
      match tc.args with
      | .error e => .error e
      | .ok data =>
        match data.updates with
        | none => .error "KeyError: updates"
        | some us =>
          match extractPairs us with
          | .error e => .error e
          | .ok ps =>
            let updated := pyDictOfPairs ps
            .ok { reply := composeChatReply data.reply aiMsg.content updated ++
                    poweredFooter provider
                  updatedFields := some updated
                  hasUpdates := !updated.isEmpty }

/-- The `chat` endpoint (chat.py lines 123-199): it reads
`req.ai_provider` (line 135) before dispatching to any adapter. -/
def chatEndpoint (req : ChatRequestE) (outcome : Except String AiMsg) :
    Except String ChatResponseE :=
  match chatRequestProvider req with
  | .error e => .error e
  | .ok provider => chatProcessMsg provider outcome

/-! ## Voice service (`voice_service.py`) -/

/-- The static `FIELD_INFO` taxonomy of `VoiceService._format_updates`
(lines 187-209), field identifier to (section, display label); a field
absent from the taxonomy yields `("", field)` via `.get`. -/
def fieldInfo (f : String) : String × String :=
  match f with
  | "report-number" => ("Report Information", "Report Number")
  | "report-date" => ("Report Information", "Date")
  | "observation-time" => ("Report Information", "Time of Observation")
  | "location" => ("Report Information", "Location")
  | "vessel-name" => ("1. Vessel and Pilot Details", "Vessel Name")
  | "imo-number" => ("1. Vessel and Pilot Details", "IMO Number")
  | "vessel-type" => ("1. Vessel and Pilot Details", "Type of Vessel")
  | "pilot-id" => ("1. Vessel and Pilot Details", "Pilot Name/ID")
  | "hazards-description" => ("2. Safety Observations", "Hazards")
  | "pilotage-comments" => ("3. Pilotage Practices & Recommendations", "Pilotage Comments")
  | "improvements" => ("3. Pilotage Practices & Recommendations", "Improvements")
  | "workload" => ("4. Work-Related Stress & Fatigue", "Workload")
  | "additional-comment" => ("4. Work-Related Stress & Fatigue", "Additional Comments")
  | "submitted-by" => ("Submission Details", "Submitted by")
  | "submission-date" => ("Submission Details", "Date of Submission")
  | _ => ("", f)

/-- The section a field belongs to under the taxonomy. -/
def secOf (f : String) : String := (fieldInfo f).1

/-- Workload display normalization (voice_service lines 216-218): an
`int`/`float` workload value becomes `str(int(value))`; any other value is
left to the f-string conversion. -/
def workloadAdjust (f : String) (v : PyVal) : PyVal :=
  if f = "workload" then
    match v with
    | .int n => .str (toString n)
    | .float q => .str (toString (pyTrunc q))
    | _ => v
  else v

/-- The `**label**: value` item text of one update (line 220). -/
def itemText (f : String) (v : PyVal) : String :=
  "**" ++ (fieldInfo f).2 ++ "**: " ++ pyStr (workloadAdjust f v)

/-- The standalone rendering of a field outside the taxonomy (line 224). -/
def standaloneText (f : String) (v : PyVal) : String :=
  "• **" ++ itemText f v ++ "**"

/-- `section_to_items.setdefault(section, []).append(item_text)` on an
insertion-ordered dict of lists. -/
def dictAppendItem (d : List (String × List String)) (k : String) (it : String) :
    List (String × List String) :=
  match d with
  | [] => [(k, [it])]
  | (k1, its) :: rest =>
    if k1 = k then (k1, its ++ [it]) :: rest else (k1, its) :: dictAppendItem rest k it

/-- One iteration of the grouping loop of `_format_updates` (lines
215-224). -/
def voiceGroupStep (acc : List (String × List String) × List String) (p : String × PyVal) :
    List (String × List String) × List String :=
  if secOf p.1 = "" then (acc.1, acc.2 ++ [standaloneText p.1 p.2])
  else (dictAppendItem acc.1 (secOf p.1) (itemText p.1 p.2), acc.2)

/-- `VoiceService._format_updates` (lines 181-233): group the updated
fields by section preserving input order, render each section as one
bulleted block, append the standalone items, and head the summary. -/
def voiceFormatUpdates (u : List (String × PyVal)) : String :=
  if u.isEmpty then ""
  else
    "I've updated the following fields:\n" ++
      String.intercalate "\n"
        ((u.foldl voiceGroupStep ([], [])).1.map
            (fun p => "• **" ++ p.1 ++ "**:\n" ++ String.intercalate "\n" p.2) ++
          (u.foldl voiceGroupStep ([], [])).2)

/-- The item texts of all updates belonging to section `s`, in input
order. -/
def sectItems (u : List (String × PyVal)) (s : String) : List String :=
  (u.filter (fun p => secOf p.1 = s)).map (fun p => itemText p.1 p.2)

/-- Declarative description of the section blocks: a block appears at the
first occurrence of its section (sections already in `ks` are skipped)
and gathers every member of that section in input order. -/
def groupsSpec (ks : List String) : List (String × PyVal) → List (String × List String)
  | [] => []
  | p :: rest =>
    if secOf p.1 = "" ∨ secOf p.1 ∈ ks then groupsSpec ks rest
    else
      (secOf p.1, itemText p.1 p.2 :: sectItems rest (secOf p.1)) ::
        groupsSpec (secOf p.1 :: ks) rest

/-- Collecting updated fields from function-call payloads (voice_service
lines 318-323 and 396-403): entries with a falsy field or a missing/`None`
suggestion are skipped; dict assignment is last-wins. -/
def voiceCollectUpdates (us : List UpdateJ) : List (String × PyVal) :=
  us.foldl
    (fun d u =>
      match u.field, u.suggestion with
      | some f, some v =>
        if f ≠ "" ∧ v ≠ PyVal.pynone then dictInsert d f v else d
      | _, _ => d)
    []

/-- `startsWithL n h`: the char list `n` is an initial segment of `h`. -/
def startsWithL : List Char → List Char → Bool
  | [], _ => true
  | _ :: _, [] => false
  | a :: as, b :: bs => a == b && startsWithL as bs

/-- `hasSubL n h`: `n` occurs as a contiguous run inside `h`. -/
def hasSubL (n : List Char) : List Char → Bool
  | [] => startsWithL n []
  | h :: t => startsWithL n (h :: t) || hasSubL n t

/-- Python `needle in hay` on strings. -/
def pyIn (needle hay : String) : Bool := hasSubL needle.data hay.data

/-- The known-noise blocklist of `transcribe_audio` (line 161). -/
def noiseMarkers : List String := ["뉴스", "김재경", "입니다", "안녕하세요"]

/-- The post-processing `transcribe_audio` applies to the Whisper text
(lines 144-171): strip it, drop empty or null-like text, drop text that
contains a blocklisted noise substring, otherwise return the stripped
text. -/
def transcribePost (raw : String) : String :=
  if pyStrip raw = "" ∨
      (["", "null", "none"] : List String).contains (pyLower (pyStrip raw)) then ""
  else if noiseMarkers.any (fun b => pyIn b (pyStrip raw)) then ""
  else pyStrip raw

/-- One normalized function-call payload of the voice chat step
(voice_service lines 307-312). -/
structure FuncCallE where
  callId : String
  fname : String
  reply : String
  updates : List UpdateJ
  deriving DecidableEq, Repr

/-- The result dict of the voice chat step (`generate_chat_response`). -/
structure VoiceChatResult where
  text : String
  functionCalls : List FuncCallE
  deriving DecidableEq, Repr

/-- The dict `process_audio_message` returns: display text, synthesized
audio bytes and the function-call payloads. -/
structure VoiceTurnResult where
  text : String
  audio : List Nat
  functionCalls : List FuncCallE
  deriving DecidableEq, Repr

/-- `process_audio_message` (lines 374-448) with the external capabilities
as parameters: the raw Whisper transcription text, the chat step and the
TTS synthesis.  The second component counts the chat-model calls the turn
issued. -/
def processAudioMessage (whisperText : String)
    (chatFn : String → VoiceChatResult) (ttsFn : String → List Nat) :
    VoiceTurnResult × Nat :=
  let userText := transcribePost whisperText
  if userText = "" then ({ text := "", audio := [], functionCalls := [] }, 0)
  else
    let cr := chatFn userText
    let updated := voiceCollectUpdates (cr.functionCalls.map (fun fc => fc.updates)).flatten
    let aiText := cr.text
    let completeText :=
      if updated.isEmpty then aiText
      else aiText ++ "\n\n---\n\n" ++ voiceFormatUpdates updated ++ "\n\n---"
    let audio := if aiText = "" then [] else ttsFn aiText
    ({ text := completeText, audio := audio, functionCalls := cr.functionCalls }, 1)

/-! ## `initialize` endpoint (chat.py lines 37-121) -/

/-- `InitializeRequest` (chat.py lines 37-40). -/
structure InitializeRequestE where
  aiRole : String := "co-worker"
  aiProvider : String := "gemini"
  deriving DecidableEq, Repr

/-- `all_possible_fields` (chat.py lines 72-78). -/
def allPossibleFields : List String :=
  ["report-number", "report-date", "observation-time", "location",
   "vessel-name", "imo-number", "vessel-type", "pilot-id",
   "hazards-description", "visibility", "sea-state", "wind-conditions",
   "incident-details", "pilotage-comments", "improvements",
   "workload", "stress-feedback", "submitted-by", "submission-date"]

/-- The role-specific greeting `welcome_msg_1` (chat.py lines 86-105). -/
def initGreeting (role : String) : String :=
  if role = "butler" then
    "Hey Jake! I've auto-filled your Maritime Pilot Report with all the standard info to save you time.\n\n"
  else if role = "coach" then
    "Hello Jake. I'm here to support you as you reflect on this pilotage experience and complete your Maritime Pilot Report.\n\n"
  else
    "Hey Jake. I've finished my task and I'm ready to start filling the Maritime Pilot Report now.\n\n"

/-- The role-specific second message `welcome_msg_2` (chat.py lines
86-112), built from the auto-filled mapping and the unfilled-fields
texts. -/
def initSecondBody (role : String) (updated : List (String × PyVal))
    (unfilledTexts : List String) : String :=
  if role = "butler" then
    "Here's what I've completed:\n\n" ++ chatFormatUpdates updated ++ "\n\n" ++
      "\n\nI just need quick input on these remaining items:\n" ++
      String.intercalate "\n" (unfilledTexts.map (fun t => "• " ++ t)) ++
      "\n\nJust give me the basics and I'll auto-suggest the rest!"
  else if role = "coach" then
    "I've gathered some of the basic information we know:\n\n" ++ chatFormatUpdates updated ++
      "\n\n" ++
      "\n\nRather than rushing through the remaining fields, I'd love to create space for you to reflect on this journey. Each experience offers opportunities for growth and deeper understanding of your craft.\n\n" ++
      "When you're ready, we can explore together what stood out to you about this pilotage—what challenged you, what went well, or what insights emerged. There's no hurry; we'll move at whatever pace feels right for you.\n\n" ++
      "What would you like to share about this experience?"
  else
    "I've filled all the information I know here.\n\n" ++ chatFormatUpdates updated ++ "\n\n" ++
      "\n\n Once you're available, could you check these following fields? \n" ++
      String.intercalate "\n" (unfilledTexts.map (fun t => "• " ++ t)) ++
      "\n\n"

/-- The fields of `all_possible_fields` not yet filled by the auto-filled
mapping (chat.py lines 80-81). -/
def initUnfilled (updated : List (String × PyVal)) : List String :=
  allPossibleFields.filter (fun f => !(updated.map Prod.fst).contains f)

/-- `unfilled_sections_text` (chat.py line 83). -/
def initUnfilledTexts (updated : List (String × PyVal)) : List String :=
  if (initUnfilled updated).isEmpty then []
  else ["Fields to complete: " ++ String.intercalate ", " (initUnfilled updated)]

/-- The `initialize` endpoint (chat.py lines 42-121) as a function of the
request and the adapter outcome for the seeded init message. -/
def initializeEndpoint (req : InitializeRequestE) (outcome : Except String AiMsg) :
    Except String (List ChatResponseE) :=
  match outcome with
  | .error e => .error e
  | .ok initMsg =>
    match initMsg.toolCalls with
    | [] => .ok [{ reply := "Ready to start filling the form." }]
    | tc :: _ =>
      match tc.args with
      | .error e => .error e
      | .ok data =>
        match data.updates with
        | none => .error "KeyError: updates"
        | some us =>
          match extractPairs us with
          | .error e => .error e
          | .ok ps =>
            let updated := pyDictOfPairs ps
            .ok
              [{ reply := initGreeting req.aiRole, updatedFields := some [] },
               { reply := initSecondBody req.aiRole updated (initUnfilledTexts updated) ++
                    poweredFooter req.aiProvider
                 updatedFields := some updated }]

/-! ## Spec-side comparison definitions -/

/-- Spec-side reply precedence: the first non-blank of the invocation
reply and the adapter free text, else the fixed acknowledgement. -/
def specChosenProse (dreply content : Option String) : String :=
  if nonBlank dreply then dreply.getD ""
  else if nonBlank content then content.getD ""
  else ackText

/-- Spec-side canonical string-digit form of a workload value: numeric
values stringified via truncation toward zero, any other value through
the plain string conversion. -/
def workloadCanon : PyVal → String
  | .int n => toString n
  | .float q => toString (pyTrunc q)
  | .str s => s
  | .pynone => pyStr .pynone

theorem lookup_dictInsert (d : List (String × α)) (k : String) (v : α) (k1 : String) :
    List.lookup k1 (dictInsert d k v) = if k1 = k then some v else List.lookup k1 d := by
  induction d with
  | nil =>
    by_cases h : k1 = k
    · simp [dictInsert, List.lookup_cons, h]
    · have hb : (k1 == k) = false := beq_eq_false_iff_ne.mpr h
      simp [dictInsert, List.lookup_cons, hb, h]
  | cons hd tl ih =>
    obtain ⟨a, b⟩ := hd
    by_cases hak : a = k
    · subst hak
      by_cases h : k1 = a
      · subst h
        simp [dictInsert, List.lookup_cons]
      · have hb : (k1 == a) = false := beq_eq_false_iff_ne.mpr h
        simp [dictInsert, List.lookup_cons, hb, h]
    · simp only [dictInsert, if_neg hak]
      by_cases h : k1 = a
      · subst h
        have hne : ¬ k1 = k := hak
        simp [List.lookup_cons, hne]
      · have hb : (k1 == a) = false := beq_eq_false_iff_ne.mpr h
        simp [List.lookup_cons, hb, ih]

theorem lastVal_cons (p : String × α) (ps : List (String × α)) (k : String) :
    lastVal (p :: ps) k =
      (lastVal ps k).elim (if p.1 = k then some p.2 else none) some := by
  unfold lastVal
  rcases hf : (ps.filter (fun q => q.1 = k)) with _ | ⟨q, qs⟩
  · by_cases h : p.1 = k
    · simp [List.filter_cons, h, hf]
    · simp [List.filter_cons, h, hf]
  · have hgl : ∃ r, (q :: qs).getLast? = some r := by
      cases hx : (q :: qs).getLast? with
      | none => exact absurd (List.getLast?_eq_none_iff.mp hx) (by simp)
      | some r => exact ⟨r, rfl⟩
    obtain ⟨r, hr⟩ := hgl
    by_cases h : p.1 = k
    · simp [List.filter_cons, h, hf, List.getLast?_cons_cons, hr]
    · simp [List.filter_cons, h, hf, hr]

theorem lookup_foldl_dictInsert (ps : List (String × α)) (d : List (String × α)) (k : String) :
    List.lookup k (ps.foldl (fun d p => dictInsert d p.1 p.2) d) =
      (lastVal ps k).elim (List.lookup k d) some := by
  induction ps generalizing d with
  | nil => simp [lastVal]
  | cons p ps ih =>
    simp only [List.foldl_cons]
    rw [ih, lastVal_cons]
    rcases hlast : lastVal ps k with _ | v
    · simp only [Option.elim]
      rw [lookup_dictInsert]
      by_cases h : p.1 = k
      · subst h
        simp [Option.elim]
      · have hne : ¬ k = p.1 := fun hk => h hk.symm
        simp [h, hne]
    · simp [Option.elim]

/-- The flattened mapping keeps, for every key, the value of the key's last
occurrence in the assignment stream. -/
theorem lookup_pyDictOfPairs (ps : List (String × α)) (k : String) :
    List.lookup k (pyDictOfPairs ps) = lastVal ps k := by
  rw [pyDictOfPairs, lookup_foldl_dictInsert]
  rcases lastVal ps k with _ | v <;> simp [Option.elim]

theorem dictInsert_ne_nil (d : List (String × α)) (k : String) (v : α) :
    dictInsert d k v ≠ [] := by
  cases d with
  | nil => simp [dictInsert]
  | cons hd tl =>
    obtain ⟨a, b⟩ := hd
    by_cases h : a = k <;> simp [dictInsert, h]

theorem foldl_dictInsert_ne_nil (ps : List (String × α)) (d : List (String × α))
    (hd : d ≠ []) : ps.foldl (fun d p => dictInsert d p.1 p.2) d ≠ [] := by
  induction ps generalizing d with
  | nil => simpa using hd
  | cons p ps ih =>
    simp only [List.foldl_cons]
    exact ih _ (dictInsert_ne_nil _ _ _)

/-- The flattened mapping is empty exactly when the assignment stream is. -/
theorem pyDictOfPairs_eq_nil_iff (ps : List (String × α)) :
    pyDictOfPairs ps = [] ↔ ps = [] := by
  constructor
  · intro h
    cases ps with
    | nil => rfl
    | cons p ps =>
      exfalso
      have := foldl_dictInsert_ne_nil ps (dictInsert [] p.1 p.2) (dictInsert_ne_nil _ _ _)
      simp only [pyDictOfPairs, List.foldl_cons] at h
      exact this h
  · intro h; subst h; rfl

/-! ## Claim theorems -/

/-- C1: the chat handler raises for every request — line 135 of chat.py
reads `req.ai_provider`, a field `ChatRequest` does not declare, so the
endpoint ends in an `AttributeError` (HTTP 500) no matter what the request
body or the backend would do, instead of returning the reply /
updated-fields / has-updates response the claim describes. -/
theorem C1_chat_always_attribute_error (req : ChatRequestE) (outcome : Except String AiMsg) :
    chatEndpoint req outcome =
      Except.error "AttributeError: ChatRequest has no attribute ai_provider" := rfl

/-- C2 (counterexample): a backend failure is not swallowed by the OpenAI
adapter — `chat_completion` has no `try/except`, so the exception
propagates out of the adapter to the HTTP caller instead of an empty
normalized result being returned. -/
theorem C2_counterexample :
    openaiChatCompletion (Except.error "APIConnectionError") =
        Except.error "APIConnectionError" ∧
      ∀ m : AiMsg, openaiChatCompletion (Except.error "APIConnectionError") ≠ Except.ok m :=
  ⟨rfl, fun _ h => Except.noConfusion h⟩

/-- C2 (amended): when the backend call returns but produces neither free
text nor a structured invocation, both adapters hand back a normalized
result with empty text and no invocation; when the backend call itself
fails, the exception propagates unchanged out of both adapters. -/
theorem C2_amended :
    (∀ e : String, openaiChatCompletion (Except.error e) = Except.error e) ∧
    (∀ e : String, geminiChatCompletion (Except.error e) = Except.error e) ∧
    (openaiChatCompletion (Except.ok ⟨[⟨⟨none, []⟩⟩]⟩) = Except.ok ⟨none, []⟩) ∧
    (∀ (parts : List GPart), (∀ p ∈ parts, p.funcArgs = none) →
      convertGemini ⟨none, [⟨some ⟨parts⟩⟩]⟩ = ⟨none, []⟩) := by
  refine ⟨fun _ => rfl, fun _ => rfl, rfl, ?_⟩
  intro parts h
  have hn : List.findSome? GPart.funcArgs parts = none := List.findSome?_eq_none_iff.mpr h
  simp [convertGemini, hn]

/-- C2 (witness): the amended statement at concrete inputs. -/
theorem C2_amended_witness :
    openaiChatCompletion (Except.error "boom") = Except.error "boom" ∧
      convertGemini ⟨none, [⟨some ⟨[GPart.gtext ""]⟩⟩]⟩ = ⟨none, []⟩ :=
  ⟨C2_amended.1 "boom", C2_amended.2.2.2 [GPart.gtext ""] (by intro p hp; simp at hp; subst hp; rfl)⟩

/-- C9 (counterexample): the OpenAI adapter passes the backend tool-call
list through unchanged, so a backend response carrying two tool calls
reaches downstream composition with two structured invocations. -/
theorem C9_counterexample :
    (openaiChatCompletion (Except.ok ⟨[⟨⟨none,
        [⟨some "suggest_fields", Except.ok ⟨some "a", some []⟩⟩,
         ⟨some "suggest_fields", Except.ok ⟨some "b", some []⟩⟩]⟩⟩]⟩)).map
      (fun m => m.toolCalls.length) = Except.ok 2 ∧ ¬ (2 ≤ 1) :=
  ⟨rfl, by decide⟩

/-- C9 (amended): the Gemini converter emits at most one structured
invocation (only the first function-call part of the first candidate is
kept), and the HTTP chat composition only ever consults the first tool
call of the message, ignoring any others. -/
theorem C9_amended :
    (∀ gr : GeminiResp, (convertGemini gr).toolCalls.length ≤ 1) ∧
    (∀ (provider : String) (c : Option String) (tc : ToolCallE) (rest : List ToolCallE),
      chatProcessMsg provider (Except.ok ⟨c, tc :: rest⟩) =
        chatProcessMsg provider (Except.ok ⟨c, [tc]⟩)) := by
  constructor
  · intro gr
    rcases gr with ⟨t, _ | ⟨⟨ct⟩, cs⟩⟩
    · simp [convertGemini]
    · rcases ct with _ | ⟨⟨parts⟩⟩
      · simp [convertGemini]
      · rcases h : parts.findSome? GPart.funcArgs with _ | a <;> simp [convertGemini, h]
  · intro provider c tc rest
    rfl

/-- C10 (counterexample): when the seeded init message carries no tool
call, `/initialize` returns a single reply, not the two the claim
requires. -/
theorem C10_counterexample :
    (initializeEndpoint {} (Except.ok ⟨some "Hello", []⟩)).map List.length = Except.ok 1 ∧
      (1 : Nat) ≠ 2 :=
  ⟨rfl, by decide⟩

/-- C10 (amended): whenever the seeded init message carries a structured
invocation whose parsed arguments contain a well-formed updates list,
`/initialize` returns exactly two replies in order — the role-specific
greeting first, then the summary of the auto-filled fields together with
the list of fields still needing input, with the footer appended; with no
invocation it returns the single reply `Ready to start filling the
form.`. -/
theorem C10_amended (role provider : String) (c nm r : Option String)
    (us : List UpdateJ) (ps : List (String × PyVal)) (rest : List ToolCallE)
    (h : extractPairs us = Except.ok ps) :
    initializeEndpoint ⟨role, provider⟩
        (Except.ok ⟨c, ⟨nm, Except.ok ⟨r, some us⟩⟩ :: rest⟩) =
      Except.ok
        [{ reply := initGreeting role, updatedFields := some [] },
         { reply := initSecondBody role (pyDictOfPairs ps)
              (initUnfilledTexts (pyDictOfPairs ps)) ++ poweredFooter provider
           updatedFields := some (pyDictOfPairs ps) }] ∧
      initializeEndpoint ⟨role, provider⟩ (Except.ok ⟨c, []⟩) =
        Except.ok [{ reply := "Ready to start filling the form." }] := by
  refine ⟨?_, rfl⟩
  simp only [initializeEndpoint]
  rw [h]

/-- C10 (witness): the amended statement at a concrete input. -/
theorem C10_amended_witness :
    initializeEndpoint ⟨"co-worker", "gemini"⟩
        (Except.ok ⟨none, [⟨none, Except.ok ⟨some "Hi",
          some [⟨some "vessel-name", some (PyVal.str "Beatrice 4")⟩]⟩⟩]⟩) =
      Except.ok
        [{ reply := initGreeting "co-worker", updatedFields := some [] },
         { reply := initSecondBody "co-worker" [("vessel-name", PyVal.str "Beatrice 4")]
              (initUnfilledTexts [("vessel-name", PyVal.str "Beatrice 4")]) ++
                poweredFooter "gemini"
           updatedFields := some [("vessel-name", PyVal.str "Beatrice 4")] }] :=
  (C10_amended "co-worker" "gemini" none none (some "Hi")
    [⟨some "vessel-name", some (PyVal.str "Beatrice 4")⟩]
    [("vessel-name", PyVal.str "Beatrice 4")] [] rfl).1

/-- C4: flattening a structured invocation's updates list (chat.py lines
160-171) builds the updated-fields mapping handed back by the handler
body; each field identifier maps to the suggestion of its last occurrence
in list order, and `has_updates` is true iff the mapping (equivalently,
the extracted pair stream) is non-empty. -/
theorem C4_flatten_last_wins (provider : String) (c r nm : Option String)
    (us : List UpdateJ) (ps : List (String × PyVal))
    (h : extractPairs us = Except.ok ps) :
    (chatProcessMsg provider (Except.ok ⟨c, [⟨nm, Except.ok ⟨r, some us⟩⟩]⟩)).map
        (fun resp => (resp.updatedFields, resp.hasUpdates)) =
      Except.ok (some (pyDictOfPairs ps), !(pyDictOfPairs ps).isEmpty) ∧
    (∀ k, List.lookup k (pyDictOfPairs ps) = lastVal ps k) ∧
    ((!(pyDictOfPairs ps).isEmpty) = true ↔ ps ≠ []) := by
  refine ⟨?_, fun k => lookup_pyDictOfPairs ps k, ?_⟩
  · simp only [chatProcessMsg]
    rw [h]
    rfl
  · rw [Bool.not_eq_eq_eq_not]
    simp [pyDictOfPairs_eq_nil_iff]

/-- C4 (witness): duplicate field identifiers at a concrete input — the
last occurrence wins. -/
theorem C4_flatten_last_wins_witness :
    List.lookup "sea-state"
        (pyDictOfPairs [("sea-state", PyVal.str "Rough"), ("sea-state", PyVal.str "Calm")]) =
      lastVal [("sea-state", PyVal.str "Rough"), ("sea-state", PyVal.str "Calm")] "sea-state" :=
  (C4_flatten_last_wins "openai" none none none
      [⟨some "sea-state", some (PyVal.str "Rough")⟩, ⟨some "sea-state", some (PyVal.str "Calm")⟩]
      [("sea-state", PyVal.str "Rough"), ("sea-state", PyVal.str "Calm")] rfl).2.1 "sea-state"

/-- C6 (counterexample): on the HTTP chat path a numeric workload
suggestion reaches the caller uncoerced — the updated-fields mapping keeps
the raw float `4.0`, not the canonical string `"4"`. -/
theorem C6_counterexample :
    (chatProcessMsg "openai"
        (Except.ok ⟨none, [⟨some "suggest_fields",
          Except.ok ⟨some "Noted.", some [⟨some "workload", some (PyVal.float 4)⟩]⟩⟩]⟩)).map
      (fun resp => resp.updatedFields) =
        Except.ok (some [("workload", PyVal.float 4)]) ∧
    PyVal.float 4 ≠ PyVal.str "4" :=
  ⟨rfl, by decide⟩

/-- C6 (amended): only the voice-path summary rendering coerces the
workload value, and there it agrees with the spec's canonical string-digit
form — numeric values are stringified via truncation toward zero, any
other value goes through the plain string conversion. -/
theorem C6_amended (v : PyVal) :
    itemText "workload" v = "**Workload**: " ++ workloadCanon v := by
  cases v <;> rfl

/-- C8: when the Whisper text comes back empty, null-like, or containing a
blocklisted noise substring, the voice pipeline short-circuits with empty
text, empty audio and no function calls, and issues zero chat-model
calls. -/
theorem C8_noise_short_circuit (raw : String)
    (chatFn : String → VoiceChatResult) (ttsFn : String → List Nat)
    (h : pyStrip raw = "" ∨
      (["", "null", "none"] : List String).contains (pyLower (pyStrip raw)) = true ∨
      noiseMarkers.any (fun b => pyIn b (pyStrip raw)) = true) :
    processAudioMessage raw chatFn ttsFn =
      ({ text := "", audio := [], functionCalls := [] }, 0) := by
  have hpost : transcribePost raw = "" := by
    unfold transcribePost
    by_cases h0 : (pyStrip raw = "" ∨
        (["", "null", "none"] : List String).contains (pyLower (pyStrip raw)) = true)
    · rw [if_pos h0]
    · rcases h with h | h | h
      · exact absurd (Or.inl h) h0
      · exact absurd (Or.inr h) h0
      · rw [if_neg h0, if_pos h]
  simp [processAudioMessage, hpost]

/-- C8 (witness): a blocklisted marker at a concrete input. -/
theorem C8_noise_short_circuit_witness :
    processAudioMessage "안녕하세요" (fun t => ⟨t, []⟩) (fun _ => [1, 2, 3]) =
      ({ text := "", audio := [], functionCalls := [] }, 0) :=
  C8_noise_short_circuit "안녕하세요" (fun t => ⟨t, []⟩) (fun _ => [1, 2, 3])
    (Or.inr (Or.inr (by decide)))

/-- C5 (counterexample): in the last-resort branch (blank invocation
reply, blank free text) the summary is appended after a bare blank line,
not after the `---` separator the other branches use, so the composed
reply does not equal `chosen prose ++ separator ++ summary block`. -/
theorem C5_counterexample :
    composeChatReply none none [("wind-conditions", PyVal.str "Poor")] ≠
        ackText ++ "\n\n---\n\n" ++
          chatFormatUpdates [("wind-conditions", PyVal.str "Poor")] ++ "\n\n---" ∧
      composeChatReply none none [("wind-conditions", PyVal.str "Poor")] =
        ackText ++ "\n\n" ++ chatFormatUpdates [("wind-conditions", PyVal.str "Poor")] :=
  ⟨by decide, rfl⟩

/-- C5 (amended): the reply precedence holds as claimed — the invocation's
embedded reply if non-blank, else the adapter's free text if non-blank,
else the fixed acknowledgement; when one of the first two is chosen and
the mapping is non-empty the summary follows the `\n\n---\n\n` separator
with a closing `---`, while the acknowledgement branch appends the summary
after a bare blank line, unconditionally and without the `---`
separator. -/
theorem C5_amended (dreply content : Option String) (updated : List (String × PyVal)) :
    composeChatReply dreply content updated =
      specChosenProse dreply content ++
        (if nonBlank dreply || nonBlank content then
          (if updated.isEmpty then ""
           else "\n\n---\n\n" ++ chatFormatUpdates updated ++ "\n\n---")
         else "\n\n" ++ chatFormatUpdates updated) := by
  unfold composeChatReply specChosenProse chatReplyWith
  by_cases h1 : nonBlank dreply
  · by_cases h3 : updated.isEmpty <;> simp [h1, h3, String.append_assoc]
  · by_cases h2 : nonBlank content
    · by_cases h3 : updated.isEmpty <;> simp [h1, h2, h3, String.append_assoc]
    · simp [h1, h2, String.append_assoc]

/-- The HTTP summary starts with an uppercase U whenever there are
updates. -/
theorem chatFormatUpdates_head (u : List (String × PyVal)) (h : u ≠ []) :
    (chatFormatUpdates u).data.head? = some 'U' := by
  have he : u.isEmpty = false := by simp [h]
  simp only [chatFormatUpdates, he, Bool.false_eq_true, if_false]
  rw [String.data_append, List.head?_append]
  rfl

/-- The voice summary starts with an uppercase I whenever there are
updates. -/
theorem voiceFormatUpdates_head (u : List (String × PyVal)) (h : u ≠ []) :
    (voiceFormatUpdates u).data.head? = some 'I' := by
  have he : u.isEmpty = false := by simp [h]
  simp only [voiceFormatUpdates, he, Bool.false_eq_true, if_false]
  rw [String.data_append, List.head?_append]
  rfl

/-- C3 (counterexample): on the same updated-fields mapping the HTTP chat
formatter and the voice formatter produce different summaries (flat raw
identifiers versus section-grouped display labels). -/
theorem C3_counterexample :
    chatFormatUpdates [("vessel-name", PyVal.str "Beatrice 4")] ≠
      voiceFormatUpdates [("vessel-name", PyVal.str "Beatrice 4")] := by
  decide

/-- C3 (amended): the two paths' update-summary formatters agree exactly
when the updated mapping is empty (both give the empty string) and differ
on every non-empty mapping; independently, the voice path synthesizes
speech only from the prose reply — the synthesized audio does not depend
on the function-call payloads that feed the appended summary. -/
theorem C3_amended (u : List (String × PyVal)) :
    (chatFormatUpdates u = voiceFormatUpdates u ↔ u = []) ∧
      (∀ (raw : String) (chatFn : String → VoiceChatResult) (ttsFn : String → List Nat),
        (processAudioMessage raw chatFn ttsFn).1.audio =
          (processAudioMessage raw (fun t => ⟨(chatFn t).text, []⟩) ttsFn).1.audio) := by
  constructor
  · constructor
    · intro heq
      by_contra hne
      have h1 := chatFormatUpdates_head u hne
      have h2 := voiceFormatUpdates_head u hne
      rw [heq, h2] at h1
      exact absurd h1 (by decide)
    · intro h
      subst h
      rfl
  · intro raw chatFn ttsFn
    unfold processAudioMessage
    by_cases hp : transcribePost raw = "" <;> simp [hp]

/-- Keys of the section dict after an append: unchanged for a known
section, appended at the end for a new one. -/
theorem keys_dictAppendItem (d : List (String × List String)) (k it : String) :
    (dictAppendItem d k it).map Prod.fst =
      if k ∈ d.map Prod.fst then d.map Prod.fst else d.map Prod.fst ++ [k] := by
  induction d with
  | nil => simp [dictAppendItem]
  | cons hd tl ih =>
    obtain ⟨k1, its⟩ := hd
    by_cases hk : k1 = k
    · subst hk
      simp [dictAppendItem]
    · have hk2 : ¬ k = k1 := fun hh => hk hh.symm
      simp only [dictAppendItem, if_neg hk, List.map_cons]
      rw [ih]
      by_cases hmem : k ∈ tl.map Prod.fst <;> simp [List.mem_cons, hk2, hmem]

/-- Appending an item for a new section puts the section at the end. -/
theorem dictAppendItem_not_mem (d : List (String × List String)) (k it : String)
    (h : k ∉ d.map Prod.fst) : dictAppendItem d k it = d ++ [(k, [it])] := by
  induction d with
  | nil => rfl
  | cons hd tl ih =>
    obtain ⟨k1, its⟩ := hd
    have hk : ¬ k1 = k := by
      intro hh
      exact h (by simp [hh])
    simp only [dictAppendItem, if_neg hk, List.cons_append]
    rw [ih (fun hm => h (by simp [hm]))]

/-- Appending an item for a known section, seen through a per-key suffix
map: the item lands in front of the suffix of its own key. -/
theorem dictAppendItem_map_mem (d : List (String × List String)) (s it : String)
    (g : String → List String) (hnd : (d.map Prod.fst).Nodup) (hmem : s ∈ d.map Prod.fst) :
    (dictAppendItem d s it).map (fun p => (p.1, p.2 ++ g p.1)) =
      d.map (fun p => (p.1, p.2 ++ (if p.1 = s then it :: g p.1 else g p.1))) := by
  induction d with
  | nil => simp at hmem
  | cons hd tl ih =>
    obtain ⟨k1, its⟩ := hd
    simp only [List.map_cons, List.nodup_cons] at hnd
    by_cases hk : k1 = s
    · subst hk
      have hmap : tl.map (fun p => (p.1, p.2 ++ g p.1)) =
          tl.map (fun p => (p.1, p.2 ++ if p.1 = k1 then it :: g p.1 else g p.1)) := by
        apply List.map_congr_left
        intro p hp
        have hp1 : p.1 ∈ tl.map Prod.fst := List.mem_map_of_mem Prod.fst hp
        have hne : ¬ p.1 = k1 := fun hh => hnd.1 (hh ▸ hp1)
        simp [hne]
      simp [dictAppendItem, List.append_assoc, hmap]
    · have hmem2 : s ∈ tl.map Prod.fst := by
        rcases List.mem_cons.mp hmem with h1 | h1
        · exact absurd h1.symm hk
        · exact h1
      simp only [dictAppendItem, if_neg hk, List.map_cons, List.cons.injEq]
      refine ⟨by simp [hk], ih hnd.2 hmem2⟩

/-- The grouping step on a standalone (taxonomy-less) field. -/
theorem voiceGroupStep_standalone (d : List (String × List String)) (st : List String)
    (p : String × PyVal) (hs : secOf p.1 = "") :
    voiceGroupStep (d, st) p = (d, st ++ [standaloneText p.1 p.2]) := by
  simp [voiceGroupStep, hs]

/-- The grouping step on a field with a section. -/
theorem voiceGroupStep_sect (d : List (String × List String)) (st : List String)
    (p : String × PyVal) (hs : ¬ secOf p.1 = "") :
    voiceGroupStep (d, st) p = (dictAppendItem d (secOf p.1) (itemText p.1 p.2), st) := by
  simp [voiceGroupStep, hs]

/-- The standalone items accumulate in input order, after whatever was
already collected. -/
theorem voiceFold_snd (u : List (String × PyVal)) (d : List (String × List String))
    (st : List String) :
    (u.foldl voiceGroupStep (d, st)).2 =
      st ++ (u.filter (fun p => secOf p.1 = "")).map (fun p => standaloneText p.1 p.2) := by
  induction u generalizing d st with
  | nil => simp
  | cons p rest ih =>
    simp only [List.foldl_cons]
    by_cases hs : secOf p.1 = ""
    · rw [voiceGroupStep_standalone d st p hs, ih]
      simp [List.filter_cons, hs, List.append_assoc]
    · rw [voiceGroupStep_sect d st p hs, ih]
      simp [List.filter_cons, hs]

/-- Unfolding `groupsSpec` over a cons cell. -/
theorem groupsSpec_cons (ks : List String) (p : String × PyVal)
    (rest : List (String × PyVal)) :
    groupsSpec ks (p :: rest) =
      if secOf p.1 = "" ∨ secOf p.1 ∈ ks then groupsSpec ks rest
      else
        (secOf p.1, itemText p.1 p.2 :: sectItems rest (secOf p.1)) ::
          groupsSpec (secOf p.1 :: ks) rest := rfl

/-- `groupsSpec` only depends on the membership of the seen-section
set. -/
theorem groupsSpec_congr (u : List (String × PyVal)) (ks ks2 : List String)
    (h : ∀ a, a ∈ ks ↔ a ∈ ks2) : groupsSpec ks u = groupsSpec ks2 u := by
  induction u generalizing ks ks2 with
  | nil => rfl
  | cons p rest ih =>
    rw [groupsSpec_cons, groupsSpec_cons]
    by_cases hc : secOf p.1 = "" ∨ secOf p.1 ∈ ks
    · have hc2 : secOf p.1 = "" ∨ secOf p.1 ∈ ks2 := by
        rcases hc with h1 | h1
        · exact Or.inl h1
        · exact Or.inr ((h _).mp h1)
      rw [if_pos hc, if_pos hc2]
      exact ih ks ks2 h
    · have hc2 : ¬ (secOf p.1 = "" ∨ secOf p.1 ∈ ks2) := by
        intro hx
        apply hc
        rcases hx with h1 | h1
        · exact Or.inl h1
        · exact Or.inr ((h _).mpr h1)
      rw [if_neg hc, if_neg hc2]
      congr 1
      apply ih
      intro a
      constructor
      · intro ha
        rcases List.mem_cons.mp ha with h1 | h1
        · exact h1 ▸ List.mem_cons_self _ _
        · exact List.mem_cons_of_mem _ ((h a).mp h1)
      · intro ha
        rcases List.mem_cons.mp ha with h1 | h1
        · exact h1 ▸ List.mem_cons_self _ _
        · exact List.mem_cons_of_mem _ ((h a).mpr h1)

/-- Unfolding `sectItems` over a cons cell. -/
theorem sectItems_cons (p : String × PyVal) (rest : List (String × PyVal)) (k : String) :
    sectItems (p :: rest) k =
      if secOf p.1 = k then itemText p.1 p.2 :: sectItems rest k else sectItems rest k := by
  by_cases h : secOf p.1 = k <;> simp [sectItems, List.filter_cons, h]

/-- The grouping loop of `_format_updates`, related to the declarative
description: starting from a well-formed dict `d`, the loop extends each
known section with its members from `u` and appends the new sections in
first-occurrence order. -/
theorem voiceFold_fst (u : List (String × PyVal)) (d : List (String × List String))
    (st : List String) (hnd : (d.map Prod.fst).Nodup) (hne : "" ∉ d.map Prod.fst) :
    (u.foldl voiceGroupStep (d, st)).1 =
      d.map (fun p => (p.1, p.2 ++ sectItems u p.1)) ++ groupsSpec (d.map Prod.fst) u := by
  induction u generalizing d st with
  | nil =>
    simp [sectItems, groupsSpec]
  | cons p rest ih =>
    simp only [List.foldl_cons]
    by_cases hs : secOf p.1 = ""
    · rw [voiceGroupStep_standalone d st p hs, ih d _ hnd hne,
        groupsSpec_cons, if_pos (Or.inl hs)]
      congr 1
      apply List.map_congr_left
      intro q hq
      have hq1 : q.1 ∈ d.map Prod.fst := List.mem_map_of_mem Prod.fst hq
      have hne2 : ¬ secOf p.1 = q.1 := by
        rw [hs]
        intro hh
        exact hne (hh ▸ hq1)
      rw [sectItems_cons, if_neg hne2]
    · by_cases hmem : secOf p.1 ∈ d.map Prod.fst
      · rw [voiceGroupStep_sect d st p hs]
        have hk := keys_dictAppendItem d (secOf p.1) (itemText p.1 p.2)
        rw [if_pos hmem] at hk
        rw [ih (dictAppendItem d (secOf p.1) (itemText p.1 p.2)) st
          (by rw [hk]; exact hnd) (by rw [hk]; exact hne), hk]
        rw [dictAppendItem_map_mem d (secOf p.1) (itemText p.1 p.2)
          (fun k => sectItems rest k) hnd hmem]
        rw [groupsSpec_cons, if_pos (Or.inr hmem)]
        congr 1
        apply List.map_congr_left
        intro q hq
        rw [sectItems_cons]
        by_cases hqs : q.1 = secOf p.1
        · rw [if_pos hqs, if_pos hqs.symm]
        · rw [if_neg hqs, if_neg (fun hh => hqs hh.symm)]
      · rw [voiceGroupStep_sect d st p hs]
        rw [dictAppendItem_not_mem d (secOf p.1) (itemText p.1 p.2) hmem]
        have hnd2 : (((d ++ [(secOf p.1, [itemText p.1 p.2])]).map Prod.fst)).Nodup := by
          simp only [List.map_append, List.map_cons, List.map_nil]
          simp [List.nodup_append, hnd, hmem]
        have hne2 : "" ∉ ((d ++ [(secOf p.1, [itemText p.1 p.2])]).map Prod.fst) := by
          simp only [List.map_append, List.map_cons, List.map_nil]
          intro hx
          rcases List.mem_append.mp hx with h1 | h1
          · exact hne h1
          · simp at h1
            exact hs h1.symm
        rw [ih _ st hnd2 hne2]
        simp only [List.map_append, List.map_cons, List.map_nil]
        rw [groupsSpec_congr rest (d.map Prod.fst ++ [secOf p.1]) (secOf p.1 :: d.map Prod.fst)
          (by intro a; simp [List.mem_append, List.mem_cons, or_comm])]
        rw [groupsSpec_cons,
          if_neg (by intro hx; rcases hx with h1 | h1; exact hs h1; exact hmem h1)]
        rw [List.append_assoc]
        congr 1
        apply List.map_congr_left
        intro q hq
        have hq1 : q.1 ∈ d.map Prod.fst := List.mem_map_of_mem Prod.fst hq
        have hne3 : ¬ secOf p.1 = q.1 := fun hh => hmem (hh ▸ hq1)
        rw [sectItems_cons, if_neg hne3]

/-- C7: the voice summary groups updated fields by the static
field-to-section lookup; each section is rendered as one bulleted block
whose `label: value` lines gather all members of the section in input
order (even when interleaved); the section blocks appear in
first-occurrence order of their sections among the updates; and fields
outside the taxonomy are rendered standalone (with the raw identifier as
label, inside `itemText`) after the section blocks. -/
theorem C7_section_grouping (u : List (String × PyVal)) :
    voiceFormatUpdates u =
      if u.isEmpty then ""
      else
        "I've updated the following fields:\n" ++
          String.intercalate "\n"
            ((groupsSpec [] u).map
                (fun p => "• **" ++ p.1 ++ "**:\n" ++ String.intercalate "\n" p.2) ++
              (u.filter (fun p => secOf p.1 = "")).map (fun p => standaloneText p.1 p.2)) := by
  unfold voiceFormatUpdates
  by_cases h : u.isEmpty
  · rw [if_pos h, if_pos h]
  · rw [if_neg h, if_neg h]
    rw [voiceFold_fst u [] [] (by simp) (by simp), voiceFold_snd u [] []]
    simp

end Maritime
